import Mathlib

/-!
Verification of the pairwise-comparison (ELO) rating engine of the
pitcher-rankings application.

The rating arithmetic of `elo_system.py` is embedded over the real
numbers: `10 ** x` becomes real exponentiation `Real.rpow`, so the
definitions live in a `noncomputable section`.  The Supabase-backed
Ratings Store is modelled by an explicit `StoreBehavior`: the outcome of
the single read that `load_ratings` performs, and a per-key outcome for
each upsert that `update_player_rating` performs.  The Streamlit matchup
selector of `app.py` is modelled with an injected sampling oracle in
place of `DataFrame.sample`.
-/

namespace EloPitcher

noncomputable section

/-- `DEFAULT_RATING = 1500` from `elo_system.py`. -/
def DEFAULT_RATING : ℝ := 1500

/-- `K_FACTOR = 32` from `elo_system.py`. -/
def K_FACTOR : ℝ := 32

/-- `calculate_expected_score(rating_a, rating_b)`:
`1 / (1 + 10 ** ((rating_b - rating_a) / 400))`. -/
def calculate_expected_score (rating_a rating_b : ℝ) : ℝ :=
  1 / (1 + (10 : ℝ) ^ ((rating_b - rating_a) / 400))

/-- `update_ratings(winner_rating, loser_rating)`: the winner gains
`K_FACTOR * (1 - winner_expected)`, the loser gains
`K_FACTOR * (0 - loser_expected)`. -/
def update_ratings (winner_rating loser_rating : ℝ) : ℝ × ℝ :=
  (winner_rating + K_FACTOR * (1 - calculate_expected_score winner_rating loser_rating),
   loser_rating + K_FACTOR * (0 - calculate_expected_score loser_rating winner_rating))

/-- The power term `10 ** ((b - a) / 400)` is strictly positive. -/
lemma powTerm_pos (a b : ℝ) : 0 < (10 : ℝ) ^ ((b - a) / 400) :=
  Real.rpow_pos_of_pos (by norm_num) _

/-- Expected scores of the two orderings of a pair sum to one. -/
lemma expected_add (a b : ℝ) :
    calculate_expected_score a b + calculate_expected_score b a = 1 := by
  unfold calculate_expected_score
  have ht : 0 < (10 : ℝ) ^ ((b - a) / 400) := powTerm_pos a b
  have hswap : (10 : ℝ) ^ ((a - b) / 400) = ((10 : ℝ) ^ ((b - a) / 400))⁻¹ := by
    rw [show (a - b) / 400 = -((b - a) / 400) by ring,
      Real.rpow_neg (by norm_num : (0:ℝ) ≤ 10)]
  rw [hswap]
  have h1 : (1 : ℝ) + (10 : ℝ) ^ ((b - a) / 400) ≠ 0 := by positivity
  have h2 : (10 : ℝ) ^ ((b - a) / 400) ≠ 0 := ne_of_gt ht
  field_simp
  ring

/-- The expected score is strictly positive. -/
lemma expected_pos (a b : ℝ) : 0 < calculate_expected_score a b := by
  unfold calculate_expected_score
  have ht : 0 < (10 : ℝ) ^ ((b - a) / 400) := powTerm_pos a b
  positivity

/-- The expected score is strictly below one. -/
lemma expected_lt_one (a b : ℝ) : calculate_expected_score a b < 1 := by
  unfold calculate_expected_score
  have ht : 0 < (10 : ℝ) ^ ((b - a) / 400) := powTerm_pos a b
  rw [div_lt_one (by linarith)]
  linarith

/-- A player's expected score against an equally rated opponent is one half. -/
lemma expected_self (a : ℝ) : calculate_expected_score a a = 1 / 2 := by
  unfold calculate_expected_score
  rw [sub_self, zero_div, Real.rpow_zero]
  norm_num

/-- C1: `update_ratings` returns exactly the pair prescribed by the spec
formulas with `K = 32`, and the update is zero-sum: the winner's gain
equals the negation of the loser's change. -/
theorem update_ratings_formula_and_zero_sum (w l : ℝ) :
    update_ratings w l =
      (w + 32 * (1 - calculate_expected_score w l),
       l + 32 * (0 - calculate_expected_score l w)) ∧
    (update_ratings w l).1 - w = -((update_ratings w l).2 - l) := by
  constructor
  · rfl
  · have h := expected_add w l
    simp only [update_ratings, K_FACTOR]
    ring_nf
    linarith

/-- C2: expected scores are symmetric, summing to one over the two
orderings, and a player's expected score against an equal rating is 0.5. -/
theorem expected_score_symmetric_and_half (a b : ℝ) :
    calculate_expected_score a b + calculate_expected_score b a = 1 ∧
    calculate_expected_score a a = 1 / 2 :=
  ⟨expected_add a b, expected_self a⟩

/-- C3: after `update_ratings` the winner strictly gains (in particular
whenever the winner was not rated above the loser) and the loser strictly
loses rating. -/
theorem update_ratings_winner_up_loser_down (w l : ℝ) :
    (w ≤ l → w < (update_ratings w l).1) ∧ (update_ratings w l).2 < l := by
  constructor
  · intro _
    have h := expected_lt_one w l
    simp only [update_ratings, K_FACTOR]
    linarith
  · have h := expected_pos l w
    simp only [update_ratings, K_FACTOR]
    linarith

/-- C3 witness: the guarantee instantiated at ratings 1500 and 1600. -/
theorem update_ratings_winner_up_loser_down_witness :
    ((1500 : ℝ) ≤ 1600 → (1500 : ℝ) < (update_ratings 1500 1600).1) ∧
    (update_ratings 1500 1600).2 < 1600 :=
  update_ratings_winner_up_loser_down 1500 1600

/-- A row of the `elo_ratings` Supabase table: the five columns that
`update_player_rating` writes. -/
structure RawRow where
  award_category : String
  player_id : Int
  player_name : String
  elo_rating : ℝ
  matches_played : Int

/-- A row of the DataFrame that `load_ratings` returns: the four
projected columns. -/
structure PlayerRow where
  player_id : Int
  player_name : String
  elo_rating : ℝ
  matches_played : Int

/-- The column list `["player_id", "player_name", "elo_rating",
"matches_played"]` that `load_ratings` projects onto in every branch. -/
def schemaColumns : List String :=
  ["player_id", "player_name", "elo_rating", "matches_played"]

/-- A pandas DataFrame as used by the rating engine: its column labels
and its rows. -/
structure RatingsFrame where
  columns : List String
  rows : List PlayerRow

/-- Behaviour of the Supabase backend during one engine operation: the
result of the table read (`Except.error` when `execute()` raises) and,
for each upsert key `(award_category, player_id)`, `some message` when
that upsert raises and `none` when it succeeds. -/
structure StoreBehavior where
  readResult : Except String (List RawRow)
  writeError : String → Int → Option String

/-- The column projection `df[["player_id", "player_name", "elo_rating",
"matches_played"]]` applied to rows of the raw table. -/
def projectRow (r : RawRow) : PlayerRow :=
  ⟨r.player_id, r.player_name, r.elo_rating, r.matches_played⟩

/-- `load_ratings(award_category)`: select rows of `elo_ratings` whose
`award_category` matches; on data, project to the four schema columns;
on no data or on an exception, return an empty DataFrame with the schema
columns (the exception is caught and only shown via `st.error`). -/
def load_ratings (beh : StoreBehavior) (award_category : String) : RatingsFrame :=
  match beh.readResult with
  | Except.ok data =>
    let matching := data.filter (fun r => r.award_category == award_category)
    if matching.isEmpty then
      ⟨schemaColumns, []⟩
    else
      ⟨schemaColumns, matching.map projectRow⟩
  | Except.error _ => ⟨schemaColumns, []⟩

/-- Outcome of one `update_player_rating` call: the row handed to the
upsert, whether the upsert committed, and the `st.error` message shown
when it raised (the exception is caught, nothing is returned or
re-raised). -/
structure WriteOutcome where
  requested : RawRow
  committed : Bool
  errorMsg : Option String

/-- `update_player_rating(award_category, player_id, player_name,
new_rating, matches_played)`: build the row and upsert it keyed on
`(award_category, player_id)`; a raising upsert is caught and reported
via `st.error` only. -/
def update_player_rating (beh : StoreBehavior) (award_category : String)
    (player_id : Int) (player_name : String) (new_rating : ℝ)
    (matches_played : Int) : WriteOutcome :=
  let data : RawRow := ⟨award_category, player_id, player_name, new_rating, matches_played⟩
  match beh.writeError award_category player_id with
  | Option.none => ⟨data, true, Option.none⟩
  | Option.some e => ⟨data, false, Option.some ("Error updating rating: " ++ e)⟩

/-- `get_or_create_player_rating(ratings_df, player_id, player_name)`:
the stored `elo_rating` of the first row matching `player_id`, or
`DEFAULT_RATING` for a new player. -/
def get_or_create_player_rating (ratings_df : RatingsFrame) (player_id : Int)
    (player_name : String) : ℝ :=
  match ratings_df.rows.filter (fun r => r.player_id == player_id) with
  | [] => DEFAULT_RATING
  | r :: _ => r.elo_rating

/-- The current-match-count lookup inlined in `record_matchup`: the
stored `matches_played` of the first row matching `player_id`, or 0. -/
def storedMatches (ratings_df : RatingsFrame) (player_id : Int) : Int :=
  match ratings_df.rows.filter (fun r => r.player_id == player_id) with
  | [] => 0
  | r :: _ => r.matches_played

/-- What one `record_matchup` call produces: the returned pair of new
ratings and the two write outcomes, winner first. -/
structure MatchupResult where
  new_winner_rating : ℝ
  new_loser_rating : ℝ
  winner_write : WriteOutcome
  loser_write : WriteOutcome

/-- The sequence of upserts a `record_matchup` call issues. -/
def MatchupResult.upserts (m : MatchupResult) : List RawRow :=
  [m.winner_write.requested, m.loser_write.requested]

/-- `record_matchup(award_category, winner_id, winner_name, loser_id,
loser_name)`: load the category's ratings, read or default both current
ratings, apply `update_ratings`, read or default both match counts, and
upsert both players with incremented match counts. -/
def record_matchup (beh : StoreBehavior) (award_category : String)
    (winner_id : Int) (winner_name : String) (loser_id : Int)
    (loser_name : String) : MatchupResult :=
  let ratings_df := load_ratings beh award_category
  let winner_rating := get_or_create_player_rating ratings_df winner_id winner_name
  let loser_rating := get_or_create_player_rating ratings_df loser_id loser_name
  let new := update_ratings winner_rating loser_rating
  let winner_matches := storedMatches ratings_df winner_id
  let loser_matches := storedMatches ratings_df loser_id
  ⟨new.1, new.2,
   update_player_rating beh award_category winner_id winner_name new.1 (winner_matches + 1),
   update_player_rating beh award_category loser_id loser_name new.2 (loser_matches + 1)⟩

/-- Comparison used to model `sort_values("elo_rating", ascending=False)`. -/
def ratingDescLE (a b : PlayerRow) : Bool :=
  decide (b.elo_rating ≤ a.elo_rating)

/-- `get_leaderboard(award_category, top_n)`: the category's ratings
sorted by `elo_rating` descending, truncated with `head(top_n)` when
`top_n` is given; an empty category's (empty) DataFrame is returned as
is. -/
def get_leaderboard (beh : StoreBehavior) (award_category : String)
    (top_n : Option Nat) : RatingsFrame :=
  let ratings_df := load_ratings beh award_category
  if ratings_df.rows.isEmpty then ratings_df
  else
    let sorted_rows := ratings_df.rows.mergeSort ratingDescLE
    match top_n with
    | Option.some n => ⟨ratings_df.columns, sorted_rows.take n⟩
    | Option.none => ⟨ratings_df.columns, sorted_rows⟩

/-- A behaving store holding no rows, with every upsert succeeding. -/
def behOk : StoreBehavior := ⟨Except.ok [], fun _ _ => Option.none⟩

/-- A store whose read raises, with every upsert succeeding. -/
def behReadFail : StoreBehavior :=
  ⟨Except.error "connection refused", fun _ _ => Option.none⟩

/-- A store holding no rows whose every upsert raises. -/
def behWriteFail : StoreBehavior :=
  ⟨Except.ok [], fun _ _ => Option.some "connection refused"⟩

/-- A store whose read and every upsert raise. -/
def behBothFail : StoreBehavior :=
  ⟨Except.error "connection refused", fun _ _ => Option.some "connection refused"⟩

/-- The row handed to the upsert is exactly the data dictionary built
from the arguments, whether or not the upsert raises. -/
lemma update_player_rating_requested (beh : StoreBehavior) (cat : String)
    (pid : Int) (name : String) (r : ℝ) (m : Int) :
    (update_player_rating beh cat pid name r m).requested = ⟨cat, pid, name, r, m⟩ := by
  unfold update_player_rating
  cases beh.writeError cat pid <;> rfl

/-- A player absent from the loaded frame matches no filtered row. -/
lemma filter_of_absent (df : RatingsFrame) (pid : Int)
    (h : ∀ r ∈ df.rows, r.player_id ≠ pid) :
    df.rows.filter (fun r => r.player_id == pid) = [] := by
  rw [List.filter_eq_nil_iff]
  intro r hr
  simp [h r hr]

/-- C4: a competitor with no record in the category starts from
`DEFAULT_RATING = 1500`: the row `record_matchup` writes for them is
computed by `update_ratings` from 1500 and carries `matches_played = 1`,
for the winner and the loser alike. -/
theorem record_matchup_new_player_defaults (beh : StoreBehavior)
    (cat wname lname : String) (wid lid : Int) :
    ((∀ r ∈ (load_ratings beh cat).rows, r.player_id ≠ wid) →
      (record_matchup beh cat wid wname lid lname).winner_write.requested =
        ⟨cat, wid, wname,
         (update_ratings DEFAULT_RATING
           (get_or_create_player_rating (load_ratings beh cat) lid lname)).1, 1⟩) ∧
    ((∀ r ∈ (load_ratings beh cat).rows, r.player_id ≠ lid) →
      (record_matchup beh cat wid wname lid lname).loser_write.requested =
        ⟨cat, lid, lname,
         (update_ratings
           (get_or_create_player_rating (load_ratings beh cat) wid wname)
           DEFAULT_RATING).2, 1⟩) := by
  constructor
  · intro h
    have hfil := filter_of_absent (load_ratings beh cat) wid h
    have hget : get_or_create_player_rating (load_ratings beh cat) wid wname
        = DEFAULT_RATING := by
      unfold get_or_create_player_rating
      rw [hfil]
    have hmat : storedMatches (load_ratings beh cat) wid = 0 := by
      unfold storedMatches
      rw [hfil]
    simp only [record_matchup, update_player_rating_requested, hget, hmat]
    norm_num
  · intro h
    have hfil := filter_of_absent (load_ratings beh cat) lid h
    have hget : get_or_create_player_rating (load_ratings beh cat) lid lname
        = DEFAULT_RATING := by
      unfold get_or_create_player_rating
      rw [hfil]
    have hmat : storedMatches (load_ratings beh cat) lid = 0 := by
      unfold storedMatches
      rw [hfil]
    simp only [record_matchup, update_player_rating_requested, hget, hmat]
    norm_num

/-- C4 witness: against an empty store, the winner of the first recorded
matchup is written at the rating `update_ratings` yields from two 1500
defaults, with one match played. -/
theorem record_matchup_new_player_defaults_witness :
    (∀ r ∈ (load_ratings behOk "al_cy_young").rows, r.player_id ≠ (1 : Int)) ∧
    (record_matchup behOk "al_cy_young" 1 "Tarik Skubal" 2 "Garrett Crochet").winner_write.requested =
      ⟨"al_cy_young", 1, "Tarik Skubal",
       (update_ratings DEFAULT_RATING
         (get_or_create_player_rating (load_ratings behOk "al_cy_young") 2 "Garrett Crochet")).1, 1⟩ :=
  ⟨fun r hr => by simp [load_ratings, behOk] at hr,
   (record_matchup_new_player_defaults behOk "al_cy_young" "Tarik Skubal"
      "Garrett Crochet" 1 2).1
     (fun r hr => by simp [load_ratings, behOk] at hr)⟩

/-- C5: a recorded matchup issues exactly two upserts, keyed on the
category and each participant's id, carrying the new ratings and each
participant's stored match count incremented by exactly one. -/
theorem record_matchup_two_upserts (beh : StoreBehavior)
    (cat wname lname : String) (wid lid : Int) :
    (record_matchup beh cat wid wname lid lname).upserts.length = 2 ∧
    (record_matchup beh cat wid wname lid lname).winner_write.requested =
      ⟨cat, wid, wname,
       (record_matchup beh cat wid wname lid lname).new_winner_rating,
       storedMatches (load_ratings beh cat) wid + 1⟩ ∧
    (record_matchup beh cat wid wname lid lname).loser_write.requested =
      ⟨cat, lid, lname,
       (record_matchup beh cat wid wname lid lname).new_loser_rating,
       storedMatches (load_ratings beh cat) lid + 1⟩ := by
  refine ⟨rfl, ?_, ?_⟩ <;>
    simp only [record_matchup, update_player_rating_requested]

/-- C9 counterexample: a store-access failure is not propagated and does
not abort the operation.  With the read raising, `record_matchup` still
commits both writes; with an upsert raising, the value returned to the
caller is identical to the all-success value, so the caller is not
informed that a write failed. -/
theorem store_failure_not_propagated :
    (record_matchup behReadFail "al_cy_young" 1 "Tarik Skubal" 2 "Garrett Crochet").winner_write.committed = true ∧
    (record_matchup behReadFail "al_cy_young" 1 "Tarik Skubal" 2 "Garrett Crochet").loser_write.committed = true ∧
    (record_matchup behWriteFail "al_cy_young" 1 "Tarik Skubal" 2 "Garrett Crochet").new_winner_rating =
      (record_matchup behOk "al_cy_young" 1 "Tarik Skubal" 2 "Garrett Crochet").new_winner_rating ∧
    (record_matchup behWriteFail "al_cy_young" 1 "Tarik Skubal" 2 "Garrett Crochet").new_loser_rating =
      (record_matchup behOk "al_cy_young" 1 "Tarik Skubal" 2 "Garrett Crochet").new_loser_rating :=
  ⟨rfl, rfl, rfl, rfl⟩

/-- C9 amended: store failures are swallowed inside the engine. On a read
failure `load_ratings` returns the empty schema frame and the operation
proceeds; the ratings returned by `record_matchup` and the rows it hands
to its two upserts are independent of any write failures, so the caller
receives the same value whether the writes succeed or raise; a raising
upsert only sets a UI error message on its own outcome. -/
theorem store_failures_swallowed (beh beh2 : StoreBehavior)
    (cat wname lname : String) (wid lid : Int) (e : String)
    (hread : beh.readResult = Except.error e)
    (hsame : beh2.readResult = beh.readResult) :
    load_ratings beh cat = ⟨schemaColumns, []⟩ ∧
    (record_matchup beh2 cat wid wname lid lname).new_winner_rating =
      (record_matchup beh cat wid wname lid lname).new_winner_rating ∧
    (record_matchup beh2 cat wid wname lid lname).new_loser_rating =
      (record_matchup beh cat wid wname lid lname).new_loser_rating ∧
    (record_matchup beh2 cat wid wname lid lname).winner_write.requested =
      (record_matchup beh cat wid wname lid lname).winner_write.requested ∧
    (record_matchup beh2 cat wid wname lid lname).loser_write.requested =
      (record_matchup beh cat wid wname lid lname).loser_write.requested ∧
    (∀ msg, beh.writeError cat wid = Option.some msg →
      (record_matchup beh cat wid wname lid lname).winner_write.committed = false ∧
      (record_matchup beh cat wid wname lid lname).winner_write.errorMsg =
        Option.some ("Error updating rating: " ++ msg)) := by
  have hload2 : load_ratings beh2 cat = load_ratings beh cat := by
    unfold load_ratings
    rw [hsame]
  have hload : load_ratings beh cat = ⟨schemaColumns, []⟩ := by
    unfold load_ratings
    rw [hread]
  refine ⟨hload, ?_, ?_, ?_, ?_, ?_⟩
  · simp only [record_matchup, hload2]
  · simp only [record_matchup, hload2]
  · simp only [record_matchup, update_player_rating_requested, hload2]
  · simp only [record_matchup, update_player_rating_requested, hload2]
  · intro msg hmsg
    constructor <;>
      simp only [record_matchup, update_player_rating, hmsg]

/-- C9 amended witness: with the connection down for both the read and
the writes, the loaded frame is empty and the outcome matches a behaving
write path. -/
theorem store_failures_swallowed_witness :
    behReadFail.readResult = Except.error "connection refused" ∧
    behBothFail.readResult = behReadFail.readResult ∧
    load_ratings behReadFail "al_cy_young" = ⟨schemaColumns, []⟩ ∧
    (record_matchup behBothFail "al_cy_young" 1 "Tarik Skubal" 2 "Garrett Crochet").new_winner_rating =
      (record_matchup behReadFail "al_cy_young" 1 "Tarik Skubal" 2 "Garrett Crochet").new_winner_rating :=
  ⟨rfl, rfl,
   (store_failures_swallowed behReadFail behBothFail "al_cy_young"
      "Tarik Skubal" "Garrett Crochet" 1 2 "connection refused" rfl rfl).1,
   (store_failures_swallowed behReadFail behBothFail "al_cy_young"
      "Tarik Skubal" "Garrett Crochet" 1 2 "connection refused" rfl rfl).2.1⟩

/-- C10: `load_ratings` returns a DataFrame with exactly the four schema
columns in every branch: rows found, no rows, and a raising read. -/
theorem load_ratings_schema (beh : StoreBehavior) (cat : String) :
    (load_ratings beh cat).columns =
      ["player_id", "player_name", "elo_rating", "matches_played"] := by
  unfold load_ratings
  rcases beh.readResult with e | data
  · rfl
  · dsimp only
    split
    · rfl
    · rfl

/-- C6: the leaderboard is a permutation of the category's loaded rows,
pairwise descending in rating; `top_n` truncates the sorted rows with
`take`; an empty category yields an empty row sequence, not an error. -/
theorem get_leaderboard_sorted_desc (beh : StoreBehavior) (cat : String) :
    (get_leaderboard beh cat Option.none).rows.Perm (load_ratings beh cat).rows ∧
    (get_leaderboard beh cat Option.none).rows.Pairwise
      (fun a b => b.elo_rating ≤ a.elo_rating) ∧
    (∀ n : Nat, (get_leaderboard beh cat (Option.some n)).rows =
      ((get_leaderboard beh cat Option.none).rows).take n) ∧
    ((load_ratings beh cat).rows = [] →
      (get_leaderboard beh cat Option.none).rows = []) := by
  by_cases h : (load_ratings beh cat).rows.isEmpty
  · have hrows : (load_ratings beh cat).rows = [] := List.isEmpty_iff.mp h
    have hlead : ∀ t, get_leaderboard beh cat t = load_ratings beh cat := by
      intro t
      unfold get_leaderboard
      rw [if_pos h]
    refine ⟨?_, ?_, ?_, ?_⟩
    · rw [hlead]
    · rw [hlead, hrows]
      exact List.Pairwise.nil
    · intro n
      rw [hlead, hlead, hrows]
      simp
    · intro _
      rw [hlead, hrows]
  · have hnone : (get_leaderboard beh cat Option.none).rows =
        (load_ratings beh cat).rows.mergeSort ratingDescLE := by
      unfold get_leaderboard
      rw [if_neg h]
    have hsome : ∀ n : Nat, (get_leaderboard beh cat (Option.some n)).rows =
        ((load_ratings beh cat).rows.mergeSort ratingDescLE).take n := by
      intro n
      unfold get_leaderboard
      rw [if_neg h]
    refine ⟨?_, ?_, ?_, ?_⟩
    · rw [hnone]
      exact List.mergeSort_perm _ _
    · rw [hnone]
      refine List.Pairwise.imp ?_
        (List.sorted_mergeSort ?_ ?_ (load_ratings beh cat).rows)
      · intro a b hab
        simpa [ratingDescLE] using hab
      · intro a b c hab hbc
        simp only [ratingDescLE, decide_eq_true_eq] at hab hbc ⊢
        exact le_trans hbc hab
      · intro a b
        simp only [ratingDescLE, Bool.or_eq_true, decide_eq_true_eq]
        exact le_total b.elo_rating a.elo_rating
    · intro n
      rw [hnone, hsome]
    · intro hh
      exact absurd (List.isEmpty_iff.mpr hh) h

/-- C6 witness: an empty store gives an empty leaderboard. -/
theorem get_leaderboard_sorted_desc_witness :
    (load_ratings behOk "nl_cy_young").rows = [] ∧
    (get_leaderboard behOk "nl_cy_young" Option.none).rows = [] :=
  ⟨by simp [load_ratings, behOk],
   (get_leaderboard_sorted_desc behOk "nl_cy_young").2.2.2
     (by simp [load_ratings, behOk])⟩

/-- A row of the pitcher-data DataFrame of `app.py`, reduced to the
fields the selector inspects. -/
structure Player where
  xMLBAMID : Int
  nameFirstLast : String
deriving DecidableEq

/-- What `select_random_matchup` can produce: the `(None, None)` return
for a too-small pool, a selected pair, or the `ValueError` raised after
`max_attempts` failed draws. -/
inductive SelectResult where
  | noPair : SelectResult
  | pair : Player → Player → SelectResult
  | valueError : SelectResult
deriving DecidableEq

/-- Placeholder used for out-of-range positions handed in by a sampling
oracle; validity hypotheses keep positions in range. -/
def dummyPlayer : Player := ⟨0, ""⟩

/-- `max_attempts = 10` from `select_random_matchup`. -/
def max_attempts : Nat := 10

/-- One retry loop of `select_random_matchup`: on each attempt draw two
row positions from the sampling oracle (modelling
`df.sample(n=2, replace=False)`); return the pair if the two
`xMLBAMID`s differ, else retry until the fuel runs out. -/
def selectAttempts (df : List Player) (sample : Nat → Nat × Nat) :
    Nat → Nat → SelectResult
  | 0, _ => SelectResult.valueError
  | fuel + 1, attempt =>
    let player1 := df.getD (sample attempt).1 dummyPlayer
    let player2 := df.getD (sample attempt).2 dummyPlayer
    if player1.xMLBAMID ≠ player2.xMLBAMID then SelectResult.pair player1 player2
    else selectAttempts df sample fuel (attempt + 1)

/-- `select_random_matchup(df)`: `(None, None)` when the pool has fewer
than 2 rows, otherwise up to `max_attempts` draws of two distinct row
positions. -/
def select_random_matchup (df : List Player) (sample : Nat → Nat × Nat) :
    SelectResult :=
  if df.length < 2 then SelectResult.noPair
  else selectAttempts df sample max_attempts 0

/-- A sampling oracle models `df.sample(n=2, replace=False)`: both drawn
row positions are in range and distinct. -/
def validSampler (df : List Player) (sample : Nat → Nat × Nat) : Prop :=
  ∀ t, (sample t).1 < df.length ∧ (sample t).2 < df.length ∧
    (sample t).1 ≠ (sample t).2

/-- Unfolding equation for a positive-fuel step of the retry loop. -/
lemma selectAttempts_succ (df : List Player) (sample : Nat → Nat × Nat)
    (fuel attempt : Nat) :
    selectAttempts df sample (fuel + 1) attempt =
      if (df.getD (sample attempt).1 dummyPlayer).xMLBAMID ≠
          (df.getD (sample attempt).2 dummyPlayer).xMLBAMID then
        SelectResult.pair (df.getD (sample attempt).1 dummyPlayer)
          (df.getD (sample attempt).2 dummyPlayer)
      else selectAttempts df sample fuel (attempt + 1) := rfl

/-- C7: over a pool of exactly two competitors with distinct identities
and a without-replacement sampling oracle, the selector returns those
two competitors in some order, on the very first attempt, and never
reaches the retries-exhausted `ValueError`. -/
theorem select_random_matchup_two_distinct (p q : Player)
    (sample : Nat → Nat × Nat)
    (hpq : p.xMLBAMID ≠ q.xMLBAMID)
    (hvalid : validSampler [p, q] sample) :
    select_random_matchup [p, q] sample = SelectResult.pair p q ∨
    select_random_matchup [p, q] sample = SelectResult.pair q p := by
  have hlen : ¬ ([p, q].length < 2) := by simp
  obtain ⟨h1, h2, h3⟩ := hvalid 0
  simp only [List.length_cons, List.length_nil] at h1 h2
  unfold select_random_matchup max_attempts
  rw [if_neg hlen, show (10 : Nat) = 9 + 1 from rfl, selectAttempts_succ]
  have hij : ((sample 0).1 = 0 ∧ (sample 0).2 = 1) ∨
      ((sample 0).1 = 1 ∧ (sample 0).2 = 0) := by omega
  rcases hij with ⟨hi, hj⟩ | ⟨hi, hj⟩
  · rw [hi, hj]
    simp only [List.getD, List.get?_eq_getElem?]
    left
    rw [if_pos]
    · simp
    · simpa using hpq
  · rw [hi, hj]
    simp only [List.getD, List.get?_eq_getElem?]
    right
    rw [if_pos]
    · simp
    · simpa using fun hh => hpq hh.symm

/-- C7 witness: two concrete distinct pitchers under the oracle that
always draws rows 0 and 1. -/
theorem select_random_matchup_two_distinct_witness :
    ((⟨1, "Tarik Skubal"⟩ : Player).xMLBAMID ≠
      (⟨2, "Garrett Crochet"⟩ : Player).xMLBAMID) ∧
    validSampler [⟨1, "Tarik Skubal"⟩, ⟨2, "Garrett Crochet"⟩] (fun _ => (0, 1)) ∧
    (select_random_matchup [⟨1, "Tarik Skubal"⟩, ⟨2, "Garrett Crochet"⟩]
        (fun _ => (0, 1)) =
      SelectResult.pair ⟨1, "Tarik Skubal"⟩ ⟨2, "Garrett Crochet"⟩ ∨
    select_random_matchup [⟨1, "Tarik Skubal"⟩, ⟨2, "Garrett Crochet"⟩]
        (fun _ => (0, 1)) =
      SelectResult.pair ⟨2, "Garrett Crochet"⟩ ⟨1, "Tarik Skubal"⟩) :=
  ⟨by decide,
   fun t => by simp [validSampler],
   select_random_matchup_two_distinct ⟨1, "Tarik Skubal"⟩ ⟨2, "Garrett Crochet"⟩
     (fun _ => (0, 1)) (by decide) (fun t => by simp [validSampler])⟩

/-- C8: a pool of fewer than two competitors makes the selector signal
the insufficient-candidates outcome, the `(None, None)` return. -/
theorem select_random_matchup_insufficient (df : List Player)
    (sample : Nat → Nat × Nat) (h : df.length < 2) :
    select_random_matchup df sample = SelectResult.noPair := by
  unfold select_random_matchup
  rw [if_pos h]

/-- C8 witness: the empty pool. -/
theorem select_random_matchup_insufficient_witness :
    ([] : List Player).length < 2 ∧
    select_random_matchup [] (fun _ => (0, 1)) = SelectResult.noPair :=
  ⟨by decide, select_random_matchup_insufficient [] (fun _ => (0, 1)) (by decide)⟩

end

end EloPitcher
